import Mathlib

/-!
Verification of the symon system monitor core (src/lib.rs) via a shallow
embedding. Machine floats (f32/f64) are modelled as exact rationals,
unsigned integers as Nat, and the OS telemetry sources (sysinfo handle,
thermal-zone file, /proc/loadavg, /proc/uptime, hostname lookup) as an
explicit environment record describing what each read observes.
-/

namespace Symon

/-- Fold a digit list into a Nat, as repeated `a * 10 + digit`. -/
def digitsToNat (cs : List Char) : Nat :=
  cs.foldl (fun a c => a * 10 + (c.toNat - 48)) 0

/-- True when the list is a nonempty run of ASCII digits. -/
def isDigits (cs : List Char) : Bool :=
  !cs.isEmpty && cs.all Char.isDigit

/-- Model of Rust `str::parse::<i32>`: optional sign, then one or more ASCII
digits, nothing else; out-of-range values are a parse error. -/
def parseI32? (cs : List Char) : Option Int :=
  match cs with
  | '+' :: rest =>
      if isDigits rest ∧ digitsToNat rest ≤ 2 ^ 31 - 1 then some (digitsToNat rest) else none
  | '-' :: rest =>
      if isDigits rest ∧ digitsToNat rest ≤ 2 ^ 31 then some (-(digitsToNat rest : Int)) else none
  | _ =>
      if isDigits cs ∧ digitsToNat cs ≤ 2 ^ 31 - 1 then some (digitsToNat cs) else none

/-- Unsigned significand of Rust float parsing, read exactly as a rational:
`Digits . [Digits] | [Digits] . Digits | Digits`. -/
def parseUnsigned? (cs : List Char) : Option Rat :=
  let intPart := cs.takeWhile Char.isDigit
  let rest := cs.dropWhile Char.isDigit
  match rest with
  | [] => if intPart.isEmpty then none else some (digitsToNat intPart : Rat)
  | '.' :: frac =>
      if frac.all Char.isDigit ∧ (intPart ≠ [] ∨ frac ≠ []) then
        some ((digitsToNat intPart : Rat) + (digitsToNat frac : Rat) / (10 ^ frac.length : Rat))
      else none
  | _ => none

/-- Model of Rust `str::parse::<f32>` / `::<f64>` on plain decimal literals
(the grammar the kernel sources emit), with the float value read exactly as
a rational: optional sign then a decimal significand. -/
def parseDecimal? (cs : List Char) : Option Rat :=
  match cs with
  | '+' :: rest => parseUnsigned? rest
  | '-' :: rest => (parseUnsigned? rest).map (fun q => -q)
  | _ => parseUnsigned? cs

/-- Strip leading and trailing whitespace, as Rust `str::trim`. -/
def trimChars (cs : List Char) : List Char :=
  ((cs.dropWhile Char.isWhitespace).reverse.dropWhile Char.isWhitespace).reverse

/-- Accumulator loop behind `splitWhitespace`. -/
def splitWsAux : List Char → List Char → List (List Char)
  | [], acc => if acc.isEmpty then [] else [acc.reverse]
  | c :: rest, acc =>
      if c.isWhitespace then
        if acc.isEmpty then splitWsAux rest [] else acc.reverse :: splitWsAux rest []
      else splitWsAux rest (c :: acc)

/-- Model of Rust `str::split_whitespace`: maximal runs of non-whitespace
characters, empty pieces dropped. -/
def splitWhitespace (s : String) : List String :=
  (splitWsAux s.toList []).map List.asString

/-- Snapshot of everything the OS exposes to one `refresh` + tick: the sysinfo
per-core usage percentages and memory counters, the hostname lookup, the raw
contents of the three scraped files (`none` = read failed), and the clock. -/
structure Env where
  cpus : List Rat
  total_memory : Nat
  used_memory : Nat
  available_memory : Nat
  total_swap : Nat
  used_swap : Nat
  host_name : Option String
  thermal_zone0_temp : Option String
  proc_loadavg : Option String
  proc_uptime : Option String
  now_timestamp : Nat
  deriving DecidableEq

/-- Mirror of `CpuStats` (f32 fields as Rat, `[f32; 3]` as a triple). -/
structure CpuStats where
  usage_percent : Rat
  cores : Nat
  temperature : Rat
  load_avg : Option (Rat × Rat × Rat)
  deriving DecidableEq

/-- Mirror of `MemoryStats`. -/
structure MemoryStats where
  total : Nat
  used : Nat
  available : Nat
  pressure_score : Rat
  swap_total : Nat
  swap_used : Nat
  deriving DecidableEq

/-- Mirror of `BasicSystemInfo`. -/
structure BasicSystemInfo where
  hostname : String
  uptime : Nat
  deriving DecidableEq

/-- Mirror of `SystemStats`. -/
structure SystemStats where
  timestamp : Nat
  cpu : CpuStats
  memory : MemoryStats
  system_info : BasicSystemInfo
  deriving DecidableEq

/-- Mirror of `MonitorConfig`. -/
structure MonitorConfig where
  interval : Nat
  duration : Nat
  cpu_threshold : Rat
  memory_threshold : Rat
  temperature_threshold : Rat
  enable_alerts : Bool
  log_file : String
  deriving DecidableEq

/-- `MonitorConfig::default` (lib.rs lines 52-64). -/
def MonitorConfig.default : MonitorConfig where
  interval := 5
  duration := 0
  cpu_threshold := 90
  memory_threshold := 85
  temperature_threshold := 80
  enable_alerts := true
  log_file := "system_monitor.log"

/-- `SystemMonitor::get_cpu_temperature` (lib.rs lines 258-265): read the
thermal-zone file, trim, parse as i32 millidegrees, divide by 1000; any
failure yields 0.0. -/
def get_cpu_temperature (e : Env) : Rat :=
  match e.thermal_zone0_temp with
  | some s =>
      match parseI32? (trimChars s.toList) with
      | some t => (t : Rat) / 1000
      | none => 0
  | none => 0

/-- `SystemMonitor::get_load_average` (lib.rs lines 267-281): split
/proc/loadavg on whitespace; require at least 3 fields and all of the first
three to parse as floats, else absent. -/
def get_load_average (e : Env) : Option (Rat × Rat × Rat) :=
  match e.proc_loadavg with
  | some s =>
      let parts := splitWhitespace s
      if 3 ≤ parts.length then
        match parseDecimal? (parts.getD 0 "").toList,
              parseDecimal? (parts.getD 1 "").toList,
              parseDecimal? (parts.getD 2 "").toList with
        | some load1, some load5, some load15 => some (load1, load5, load15)
        | _, _, _ => none
      else none
  | none => none

/-- `read_uptime` (lib.rs lines 291-298): first whitespace field of
/proc/uptime (or "0" when there is none) parsed as f64, truncated to u64 with
the saturating `as` cast; any failure yields 0. -/
def read_uptime (e : Env) : Nat :=
  match e.proc_uptime with
  | some s =>
      match parseDecimal? ((splitWhitespace s).headD "0").toList with
      | some q => min (2 ^ 64 - 1) (⌊q⌋).toNat
      | none => 0
  | none => 0

/-- `SystemMonitor::get_cpu_stats` (lib.rs lines 218-230). -/
def get_cpu_stats (e : Env) : CpuStats where
  usage_percent := e.cpus.sum / (e.cpus.length : Rat)
  cores := e.cpus.length
  temperature := get_cpu_temperature e
  load_avg := get_load_average e

/-- `SystemMonitor::get_memory_stats` (lib.rs lines 232-249). -/
def get_memory_stats (e : Env) : MemoryStats where
  total := e.total_memory
  used := e.used_memory
  available := e.available_memory
  pressure_score := (e.used_memory : Rat) / (e.total_memory : Rat) * 100
  swap_total := e.total_swap
  swap_used := e.used_swap

/-- `SystemMonitor::get_system_info` (lib.rs lines 251-256): hostname with
empty-string fallback, uptime via `read_uptime`. -/
def get_system_info (e : Env) : BasicSystemInfo where
  hostname := e.host_name.getD ""
  uptime := read_uptime e

/-- `SystemMonitor::get_system_stats` (lib.rs lines 207-216): refresh (the
environment already reflects the post-refresh state) and assemble the
snapshot. Total: every environment yields a complete snapshot. -/
def get_system_stats (e : Env) : SystemStats where
  timestamp := e.now_timestamp
  cpu := get_cpu_stats e
  memory := get_memory_stats e
  system_info := get_system_info e

/-- Alert kinds surfaced by `SystemMonitorRunner::check_alerts`. -/
inductive AlertEvent where
  | HighCpu
  | HighMemory
  | HighTemperature
  deriving DecidableEq

/-- `SystemMonitorRunner::check_alerts` (lib.rs lines 162-175): the list of
alerts emitted for one snapshot, in source order. The memory percentage is
recomputed from the raw used and total fields, not read from
`pressure_score`. -/
def check_alerts (cfg : MonitorConfig) (stats : SystemStats) : List AlertEvent :=
  (if stats.cpu.usage_percent > cfg.cpu_threshold then [AlertEvent.HighCpu] else []) ++
  (if (stats.memory.used : Rat) / (stats.memory.total : Rat) * 100 > cfg.memory_threshold then
    [AlertEvent.HighMemory] else []) ++
  (if stats.cpu.temperature > cfg.temperature_threshold then [AlertEvent.HighTemperature] else [])

/-- What the outside world supplies to one loop iteration: the OS state the
tick samples, whether `log_stats` (serialize, open, write) succeeds, and the
wall-clock seconds elapsed since `start_monitoring` began, as observed at the
duration check of this tick. -/
structure TickData where
  env : Env
  logOk : Bool
  elapsed : Nat
  deriving DecidableEq

/-- Observable work of one completed (or aborted) tick: the iteration number
printed, the sampled snapshot, the alert evaluation (`none` when the
evaluator was not invoked), and whether the log append succeeded. -/
structure TickRecord where
  iteration : Nat
  stats : SystemStats
  alerts_eval : Option (List AlertEvent)
  logged : Bool
  deriving DecidableEq

/-- How a run of the loop in `start_monitoring` ended. `outOfFuel` is a model
artifact: the supplied finite list of tick inputs ran out while the loop
would have kept going. -/
inductive ExitKind where
  | stopped
  | durationDone
  | logError
  | outOfFuel
  deriving DecidableEq

/-- The loop of `SystemMonitorRunner::start_monitoring` (lib.rs lines
90-117). `flag k` is the value of the shared `running` flag as read by the
top-of-loop check of iteration `k`; `iter` counts completed iterations. Per
tick, in source order: flag check (break when false, before any work),
increment, sample, print, optional alert check, log (an error propagates at
once via the question-mark operator), duration check, sleep. -/
def monitorLoop (cfg : MonitorConfig) (flag : Nat → Bool) :
    Nat → List TickData → List TickRecord × ExitKind
  | _, [] => ([], ExitKind.outOfFuel)
  | iter, td :: rest =>
    if flag (iter + 1) = false then
      ([], ExitKind.stopped)
    else
      let stats := get_system_stats td.env
      let ev := if cfg.enable_alerts then some (check_alerts cfg stats) else none
      if td.logOk = false then
        ([⟨iter + 1, stats, ev, false⟩], ExitKind.logError)
      else if 0 < cfg.duration ∧ cfg.duration ≤ td.elapsed then
        ([⟨iter + 1, stats, ev, true⟩], ExitKind.durationDone)
      else
        let r := monitorLoop cfg flag (iter + 1) rest
        (⟨iter + 1, stats, ev, true⟩ :: r.1, r.2)

/-- Return value of `start_monitoring` for each exit: `Ok(())` on a stop or
duration exit, the propagated error on a logging failure. -/
def startReturn : ExitKind → Except Unit Unit
  | ExitKind.logError => Except.error ()
  | _ => Except.ok ()

/-- Value of the `running` flag at flag check `k` (checks are 1-indexed),
given `stopReq j` = whether a `stop_monitoring` call landed in the window
before check `j`. `start_monitoring` sets the flag to true on entry and the
only other write is `stop_monitoring` setting it to false (lib.rs lines
122-125), so the flag reads true at check `k` exactly when no stop request
landed before it. -/
def flagFrom (stopReq : Nat → Bool) (k : Nat) : Bool :=
  (List.range k).all fun j => !stopReq (j + 1)

/-- `SystemMonitorRunner::start_monitoring` (lib.rs lines 81-120): lines
82-85 overwrite the `running` flag with true regardless of its prior value
(`initialRunning` is therefore dropped), then the loop runs with the flag
governed solely by stop requests delivered after entry. -/
def start_monitoring (cfg : MonitorConfig) (initialRunning : Bool)
    (stopReq : Nat → Bool) (ticks : List TickData) : List TickRecord × ExitKind :=
  monitorLoop cfg (flagFrom stopReq) 0 ticks

/-- Process exit code computed from the loop outcome at the foreign
boundary: 0 for `Ok`, 1 for `Err` (lib.rs lines 440-446). -/
def exitCode (ek : ExitKind) : Int :=
  match startReturn ek with
  | Except.ok _ => 0
  | Except.error _ => 1

/-- The `config_json` pointer handed to `run_system_monitor_with_config`:
either null, or text whose serde parse outcome (an external parser) is
`parsed`. -/
inductive ConfigInput where
  | null
  | text (parsed : Option MonitorConfig)

/-- `run_system_monitor_with_config` (lib.rs lines 418-447): a null pointer
selects `MonitorConfig::default`; text that fails to parse returns 1 before
any runner is built (no loop iterations); otherwise the parsed config drives
`start_monitoring` (the runner is created with `running = false`). Returns
the status code together with the loop iterations that ran. -/
def run_system_monitor_with_config (input : ConfigInput) (stopReq : Nat → Bool)
    (ticks : List TickData) : Int × List TickRecord :=
  match input with
  | ConfigInput.null =>
      let r := start_monitoring MonitorConfig.default false stopReq ticks
      (exitCode r.2, r.1)
  | ConfigInput.text none => (1, [])
  | ConfigInput.text (some cfg) =>
      let r := start_monitoring cfg false stopReq ticks
      (exitCode r.2, r.1)

/-- Tick inputs with idealized timing, indexed from `s`: tick `s + j`
(0-based) observes `(s + j) * I` elapsed seconds at its duration check. -/
def idealFrom (I : Nat) (e : Env) : Nat → Nat → List TickData
  | _, 0 => []
  | s, n + 1 => ⟨e, true, s * I⟩ :: idealFrom I e (s + 1) n

/-- Idealized timing for a run with tick spacing `I` and zero per-tick
processing time: every read succeeds, no log failure, and the duration check
of iteration `k+1` observes `k * I` elapsed seconds (the `k` sleeps so
far). -/
def idealTicks (I : Nat) (e : Env) (n : Nat) : List TickData :=
  idealFrom I e 0 n

/-- A stop-request schedule with no stop requests at all. -/
def stopNone : Nat → Bool := fun _ => false

/-- Example environment in which every telemetry source is unavailable. -/
def envNone : Env where
  cpus := [50, 30]
  total_memory := 1000
  used_memory := 500
  available_memory := 500
  total_swap := 0
  used_swap := 0
  host_name := none
  thermal_zone0_temp := none
  proc_loadavg := none
  proc_uptime := none
  now_timestamp := 1

/-- Example environment whose scraped files are readable but unparsable. -/
def envBad : Env where
  cpus := [50, 30]
  total_memory := 1000
  used_memory := 500
  available_memory := 500
  total_swap := 0
  used_swap := 0
  host_name := some "box"
  thermal_zone0_temp := some "abc"
  proc_loadavg := some "0.5 xyz 0.1"
  proc_uptime := some "garbage"
  now_timestamp := 1

/-- Example environment with healthy telemetry sources. -/
def envEx : Env where
  cpus := [50, 30]
  total_memory := 1000
  used_memory := 500
  available_memory := 500
  total_swap := 0
  used_swap := 0
  host_name := some "box"
  thermal_zone0_temp := some "45000\n"
  proc_loadavg := some "0.50 0.25 0.10 1/100 12345"
  proc_uptime := some "100.5 120.3"
  now_timestamp := 1

/-- Example configuration: a 5 second duration with a 2 second interval. -/
def cfgEx : MonitorConfig :=
  { MonitorConfig.default with interval := 2, duration := 5 }

/-- Example configuration with alerts disabled. -/
def cfgOff : MonitorConfig :=
  { MonitorConfig.default with enable_alerts := false }

/-- Example tick input whose log append succeeds. -/
def tdEx : TickData where
  env := envEx
  logOk := true
  elapsed := 0

/-- Example tick input whose log append fails. -/
def tdBad : TickData where
  env := envEx
  logOk := false
  elapsed := 0

end Symon

namespace Symon

/-- C1: every single-source failure in `get_system_stats` is soft — a missing
or unparsable thermal zone yields temperature 0, a missing load-average
source or one with fewer than 3 fields or a parse failure among the first
three yields an absent load average, an unresolvable hostname yields the
empty string, an unreadable uptime source yields 0 — and the sample is
always a complete snapshot (the collector is a total function, built from
the four total field collectors). -/
theorem sample_soft_failures (e : Env) :
    (e.thermal_zone0_temp = none → (get_system_stats e).cpu.temperature = 0) ∧
    (∀ s, e.thermal_zone0_temp = some s → parseI32? (trimChars s.toList) = none →
      (get_system_stats e).cpu.temperature = 0) ∧
    (e.proc_loadavg = none → (get_system_stats e).cpu.load_avg = none) ∧
    (∀ s, e.proc_loadavg = some s → (splitWhitespace s).length < 3 →
      (get_system_stats e).cpu.load_avg = none) ∧
    (∀ s, e.proc_loadavg = some s →
      (parseDecimal? ((splitWhitespace s).getD 0 "").toList = none ∨
       parseDecimal? ((splitWhitespace s).getD 1 "").toList = none ∨
       parseDecimal? ((splitWhitespace s).getD 2 "").toList = none) →
      (get_system_stats e).cpu.load_avg = none) ∧
    (e.host_name = none → (get_system_stats e).system_info.hostname = "") ∧
    (e.proc_uptime = none → (get_system_stats e).system_info.uptime = 0) ∧
    get_system_stats e =
      ⟨e.now_timestamp, get_cpu_stats e, get_memory_stats e, get_system_info e⟩ := by
  refine ⟨?_, ?_, ?_, ?_, ?_, ?_, ?_, rfl⟩
  · intro h
    show get_cpu_temperature e = 0
    rw [get_cpu_temperature, h]
  · intro s hs hp
    show get_cpu_temperature e = 0
    simp only [String.toList] at hp
    simp [get_cpu_temperature, hs, hp]
  · intro h
    show get_load_average e = none
    rw [get_load_average, h]
  · intro s hs hlen
    show get_load_average e = none
    rw [get_load_average, hs]
    simp only []
    rw [if_neg (by omega)]
  · intro s hs hbad
    show get_load_average e = none
    rw [get_load_average, hs]
    simp only []
    split
    · split
      · rename_i h1 h2 h3
        rcases hbad with h | h | h <;> simp_all
      · rfl
    · rfl
  · intro h
    show (get_system_info e).hostname = ""
    rw [get_system_info, h]
    rfl
  · intro h
    show read_uptime e = 0
    rw [read_uptime, h]

/-- Witness for C1 at the concrete environments with absent and with
unparsable sources. -/
theorem sample_soft_failures_witness :
    (get_system_stats envNone).cpu.temperature = 0 ∧
    (get_system_stats envNone).cpu.load_avg = none ∧
    (get_system_stats envNone).system_info.hostname = "" ∧
    (get_system_stats envNone).system_info.uptime = 0 ∧
    (get_system_stats envBad).cpu.temperature = 0 ∧
    (get_system_stats envBad).cpu.load_avg = none :=
  ⟨(sample_soft_failures envNone).1 rfl,
   (sample_soft_failures envNone).2.2.1 rfl,
   (sample_soft_failures envNone).2.2.2.2.2.1 rfl,
   (sample_soft_failures envNone).2.2.2.2.2.2.1 rfl,
   (sample_soft_failures envBad).2.1 "abc" rfl (by decide),
   (sample_soft_failures envBad).2.2.2.2.1 "0.5 xyz 0.1" rfl
     (Or.inr (Or.inl (by decide)))⟩

/-- C2: `check_alerts` emits HighCpu iff the CPU usage strictly exceeds the
CPU threshold, HighMemory iff the memory percentage recomputed from the raw
used and total fields strictly exceeds the memory threshold, and
HighTemperature iff the temperature strictly exceeds the temperature
threshold; equality with a threshold never alerts. -/
theorem check_alerts_strict (cfg : MonitorConfig) (stats : SystemStats) :
    (AlertEvent.HighCpu ∈ check_alerts cfg stats ↔
      stats.cpu.usage_percent > cfg.cpu_threshold) ∧
    (AlertEvent.HighMemory ∈ check_alerts cfg stats ↔
      (stats.memory.used : Rat) / (stats.memory.total : Rat) * 100 > cfg.memory_threshold) ∧
    (AlertEvent.HighTemperature ∈ check_alerts cfg stats ↔
      stats.cpu.temperature > cfg.temperature_threshold) := by
  refine ⟨?_, ?_, ?_⟩ <;>
    · simp only [check_alerts]
      split_ifs <;> simp_all

/-- C6: the pressure score is exactly (used/total)×100 as computed from the
environment, it is never negative, it is at most 100 whenever used ≤ total,
and it can exceed 100 only when the OS reports used > total (no clamping is
applied). -/
theorem pressure_score_spec (e : Env) :
    (get_memory_stats e).pressure_score =
      (e.used_memory : Rat) / (e.total_memory : Rat) * 100 ∧
    0 ≤ (get_memory_stats e).pressure_score ∧
    (e.used_memory ≤ e.total_memory → (get_memory_stats e).pressure_score ≤ 100) ∧
    (100 < (get_memory_stats e).pressure_score → e.total_memory < e.used_memory) := by
  have hps : (get_memory_stats e).pressure_score =
      (e.used_memory : Rat) / (e.total_memory : Rat) * 100 := rfl
  have hnn : 0 ≤ (get_memory_stats e).pressure_score := by
    rw [hps]; positivity
  have hle : e.used_memory ≤ e.total_memory → (get_memory_stats e).pressure_score ≤ 100 := by
    intro h
    rw [hps]
    rcases Nat.eq_zero_or_pos e.total_memory with h0 | h0
    · have hu : e.used_memory = 0 := by omega
      rw [h0, hu]
      norm_num
    · have ht : (0 : Rat) < (e.total_memory : Rat) := by exact_mod_cast h0
      have hq : (e.used_memory : Rat) / (e.total_memory : Rat) ≤ 1 := by
        rw [div_le_one ht]
        exact_mod_cast h
      nlinarith
  refine ⟨hps, hnn, hle, ?_⟩
  intro hgt
  by_contra hcon
  exact absurd (hle (by omega)) (by linarith)

/-- Witness for C6 at a concrete environment with used ≤ total. -/
theorem pressure_score_spec_witness :
    envEx.used_memory ≤ envEx.total_memory ∧
    0 ≤ (get_memory_stats envEx).pressure_score ∧
    (get_memory_stats envEx).pressure_score ≤ 100 :=
  ⟨by decide, (pressure_score_spec envEx).2.1,
   (pressure_score_spec envEx).2.2.1 (by decide)⟩

/-- C7: the CPU usage is the arithmetic mean of the per-core percentages the
OS source reports; when that source is nonempty (the sysinfo invariant the
tests assume) the core count is at least 1, and when every per-core value
lies in [0, 100] the mean lies in [0, 100] as well. -/
theorem cpu_stats_spec (e : Env) (hne : e.cpus ≠ []) :
    (get_cpu_stats e).usage_percent = e.cpus.sum / (e.cpus.length : Rat) ∧
    1 ≤ (get_cpu_stats e).cores ∧
    ((∀ x ∈ e.cpus, 0 ≤ x ∧ x ≤ 100) →
      0 ≤ (get_cpu_stats e).usage_percent ∧ (get_cpu_stats e).usage_percent ≤ 100) := by
  have hlen : 0 < e.cpus.length := List.length_pos.mpr hne
  have hlenQ : (0 : Rat) < (e.cpus.length : Rat) := by exact_mod_cast hlen
  refine ⟨rfl, hlen, ?_⟩
  intro hb
  constructor
  · show 0 ≤ e.cpus.sum / (e.cpus.length : Rat)
    have hs : 0 ≤ e.cpus.sum := List.sum_nonneg fun x hx => (hb x hx).1
    positivity
  · show e.cpus.sum / (e.cpus.length : Rat) ≤ 100
    have hs : e.cpus.sum ≤ e.cpus.length • (100 : Rat) :=
      List.sum_le_card_nsmul _ _ fun x hx => (hb x hx).2
    rw [nsmul_eq_mul] at hs
    rw [div_le_iff₀ hlenQ]
    linarith

/-- Witness for C7 at a concrete environment with two cores at 50% and
30%. -/
theorem cpu_stats_spec_witness :
    envEx.cpus ≠ [] ∧
    1 ≤ (get_cpu_stats envEx).cores ∧
    0 ≤ (get_cpu_stats envEx).usage_percent ∧
    (get_cpu_stats envEx).usage_percent ≤ 100 :=
  have h := cpu_stats_spec envEx (by decide)
  ⟨by decide, h.2.1, (h.2.2 (by decide)).1, (h.2.2 (by decide)).2⟩

/-- A flag check that reads false makes the loop exit at once, with no work
for that tick. -/
lemma monitorLoop_stop (cfg : MonitorConfig) (flag : Nat → Bool) (iter : Nat)
    (td : TickData) (rest : List TickData) (hf : flag (iter + 1) = false) :
    monitorLoop cfg flag iter (td :: rest) = ([], ExitKind.stopped) := by
  simp [monitorLoop, hf]

/-- One successful-log unfolding step of the loop: with the flag true and
the log append succeeding, the tick either ends the run at the duration
check or prepends its record to the rest of the run. -/
lemma monitorLoop_cons_ok (cfg : MonitorConfig) (flag : Nat → Bool) (iter : Nat)
    (td : TickData) (rest : List TickData) (hf : flag (iter + 1) = true)
    (hl : td.logOk = true) :
    monitorLoop cfg flag iter (td :: rest) =
      if 0 < cfg.duration ∧ cfg.duration ≤ td.elapsed then
        ([⟨iter + 1, get_system_stats td.env,
            if cfg.enable_alerts then some (check_alerts cfg (get_system_stats td.env)) else none,
            true⟩], ExitKind.durationDone)
      else
        (⟨iter + 1, get_system_stats td.env,
            if cfg.enable_alerts then some (check_alerts cfg (get_system_stats td.env)) else none,
            true⟩ :: (monitorLoop cfg flag (iter + 1) rest).1,
          (monitorLoop cfg flag (iter + 1) rest).2) := by
  simp [monitorLoop, hf, hl]

/-- A flag check that reads true runs the whole tick: the head record holds
the sample, the alert evaluation (when enabled) and the log outcome,
independently of anything later in the input. -/
lemma monitorLoop_head (cfg : MonitorConfig) (flag : Nat → Bool) (iter : Nat)
    (td : TickData) (rest : List TickData) (hf : flag (iter + 1) = true) :
    (monitorLoop cfg flag iter (td :: rest)).1.head? =
      some ⟨iter + 1, get_system_stats td.env,
        if cfg.enable_alerts then some (check_alerts cfg (get_system_stats td.env)) else none,
        td.logOk⟩ := by
  cases hl : td.logOk with
  | false => simp [monitorLoop, hf, hl]
  | true =>
      rw [monitorLoop_cons_ok cfg flag iter td rest hf hl]
      split <;> simp

/-- A failing log append ends the run at that tick with the propagated
error; the work of the tick done before logging is retained in the record,
and nothing after that tick runs. -/
lemma monitorLoop_logErr (cfg : MonitorConfig) (flag : Nat → Bool) (iter : Nat)
    (td : TickData) (rest : List TickData) (hf : flag (iter + 1) = true)
    (hl : td.logOk = false) :
    monitorLoop cfg flag iter (td :: rest) =
      ([⟨iter + 1, get_system_stats td.env,
          if cfg.enable_alerts then some (check_alerts cfg (get_system_stats td.env)) else none,
          false⟩], ExitKind.logError) := by
  simp [monitorLoop, hf, hl]

/-- Without any stop request the loop never exits through the flag check. -/
lemma monitorLoop_never_stopped (cfg : MonitorConfig) (flag : Nat → Bool)
    (hf : ∀ k, flag k = true) :
    ∀ (iter : Nat) (ticks : List TickData),
      (monitorLoop cfg flag iter ticks).2 ≠ ExitKind.stopped := by
  intro iter ticks
  induction ticks generalizing iter with
  | nil => simp [monitorLoop]
  | cons td rest ih =>
      cases hl : td.logOk with
      | false => simp [monitorLoop_logErr cfg flag iter td rest (hf (iter + 1)) hl]
      | true =>
          rw [monitorLoop_cons_ok cfg flag iter td rest (hf (iter + 1)) hl]
          split
          · simp
          · simpa using ih (iter + 1)

/-- With `duration = 0` the duration check can never end the loop. -/
lemma monitorLoop_no_durationDone (cfg : MonitorConfig) (hd : cfg.duration = 0) :
    ∀ (flag : Nat → Bool) (iter : Nat) (ticks : List TickData),
      (monitorLoop cfg flag iter ticks).2 ≠ ExitKind.durationDone := by
  intro flag iter ticks
  induction ticks generalizing iter with
  | nil => simp [monitorLoop]
  | cons td rest ih =>
      simp only [monitorLoop]
      split
      · simp
      · split
        · simp
        · split
          · simp_all
          · exact ih (iter + 1)

/-- With alerts disabled no tick ever evaluates the alert rules. -/
lemma monitorLoop_alerts_none (cfg : MonitorConfig) (hA : cfg.enable_alerts = false) :
    ∀ (flag : Nat → Bool) (iter : Nat) (ticks : List TickData),
      ∀ r ∈ (monitorLoop cfg flag iter ticks).1, r.alerts_eval = none := by
  intro flag iter ticks
  induction ticks generalizing iter with
  | nil => simp [monitorLoop]
  | cons td rest ih =>
      intro r hr
      rw [monitorLoop] at hr
      split at hr
      · simp at hr
      · simp only [hA, if_false] at hr
        split at hr
        · simp at hr
          simp [hr]
        · split at hr
          · simp at hr
            simp [hr]
          · rcases List.mem_cons.mp hr with h | h
            · simp [h]
            · exact ih (iter + 1) r h

/-- Ceiling-division facts used by the duration bound: with `c` the ceiling
of `D / I`, the elapsed time at tick `c + 1` reaches `D`, and at any earlier
tick it has not. -/
lemma ceil_mul_facts (D I : Nat) (hI : 0 < I) :
    D ≤ ((D + I - 1) / I) * I ∧ ∀ s, s < (D + I - 1) / I → s * I < D := by
  obtain ⟨q, m, hdm, hmlt, hq⟩ :
      ∃ q m, I * q + m = D + I - 1 ∧ m < I ∧ (D + I - 1) / I = q :=
    ⟨_, _, Nat.div_add_mod _ _, Nat.mod_lt _ hI, rfl⟩
  rw [hq]
  constructor
  · have h3 : q * I = I * q := Nat.mul_comm _ _
    omega
  · intro s hs
    obtain ⟨t, ht⟩ : ∃ t, q = s + 1 + t := ⟨q - s - 1, by omega⟩
    subst ht
    have hexp : I * (s + 1 + t) = I * s + I + I * t := by ring
    have hsI : I * s = s * I := Nat.mul_comm _ _
    omega

/-- Under idealized timing starting from tick index `s`, the loop runs
exactly up to the tick whose elapsed time first reaches the duration, every
tick logs, and the exit is the duration check. -/
lemma loop_ideal (cfg : MonitorConfig) (e : Env) (hD : 0 < cfg.duration)
    (hI : 0 < cfg.interval) :
    ∀ (n s iter : Nat),
      s ≤ (cfg.duration + cfg.interval - 1) / cfg.interval →
      (cfg.duration + cfg.interval - 1) / cfg.interval - s + 1 ≤ n →
      (monitorLoop cfg (fun _ => true) iter (idealFrom cfg.interval e s n)).2 =
          ExitKind.durationDone ∧
      (monitorLoop cfg (fun _ => true) iter (idealFrom cfg.interval e s n)).1.length =
          (cfg.duration + cfg.interval - 1) / cfg.interval - s + 1 ∧
      ∀ r ∈ (monitorLoop cfg (fun _ => true) iter (idealFrom cfg.interval e s n)).1,
        r.logged = true := by
  intro n
  induction n with
  | zero => intro s iter h1 h2; omega
  | succ n ih =>
      intro s iter h1 h2
      obtain ⟨hc1, hc2⟩ := ceil_mul_facts cfg.duration cfg.interval hI
      have hstep := monitorLoop_cons_ok cfg (fun _ => true) iter
        ⟨e, true, s * cfg.interval⟩ (idealFrom cfg.interval e (s + 1) n) rfl rfl
      have hun : idealFrom cfg.interval e s (n + 1) =
          TickData.mk e true (s * cfg.interval) :: idealFrom cfg.interval e (s + 1) n := rfl
      rw [hun, hstep]
      rcases Nat.lt_or_ge s ((cfg.duration + cfg.interval - 1) / cfg.interval) with hsc | hsc
      · have hlt : s * cfg.interval < cfg.duration := hc2 s hsc
        have ihr := ih (s + 1) (iter + 1) (by omega) (by omega)
        have hcond : ¬ (0 < cfg.duration ∧
            cfg.duration ≤ TickData.elapsed ⟨e, true, s * cfg.interval⟩) := by
          show ¬ (0 < cfg.duration ∧ cfg.duration ≤ s * cfg.interval)
          intro h
          omega
        rw [if_neg hcond]
        refine ⟨ihr.1, ?_, ?_⟩
        · have hlen := ihr.2.1
          simp only [List.length_cons, hlen]
          omega
        · intro r hr
          rcases List.mem_cons.mp hr with h | h
          · rw [h]
          · exact ihr.2.2 r h
      · have hse : s = (cfg.duration + cfg.interval - 1) / cfg.interval := by omega
        have hdur : cfg.duration ≤ s * cfg.interval := by rw [hse]; exact hc1
        rw [if_pos (⟨hD, hdur⟩ :
          0 < cfg.duration ∧ cfg.duration ≤ TickData.elapsed ⟨e, true, s * cfg.interval⟩)]
        refine ⟨rfl, ?_, ?_⟩
        · show 1 = (cfg.duration + cfg.interval - 1) / cfg.interval - s + 1
          omega
        · intro r hr
          rw [List.mem_singleton.mp hr]

/-- C3: with idealized timing (zero per-tick processing, so the duration
check of tick `k+1` observes `k * I` elapsed seconds), a positive duration
`D` and interval `I` make the loop exit through the duration check after
`(D + I - 1) / I + 1` ticks — so at least `⌈D/I⌉ = (D + I - 1) / I` ticks —
with every tick logged before the check and with `start` returning `Ok`,
all without any stop request; and with `duration = 0` the duration check
never terminates the loop. -/
theorem duration_termination_spec (cfg : MonitorConfig) (e : Env) (n : Nat)
    (hD : 0 < cfg.duration) (hI : 0 < cfg.interval)
    (hn : (cfg.duration + cfg.interval - 1) / cfg.interval + 1 ≤ n) :
    (monitorLoop cfg (fun _ => true) 0 (idealTicks cfg.interval e n)).2 =
        ExitKind.durationDone ∧
    (monitorLoop cfg (fun _ => true) 0 (idealTicks cfg.interval e n)).1.length =
        (cfg.duration + cfg.interval - 1) / cfg.interval + 1 ∧
    (cfg.duration + cfg.interval - 1) / cfg.interval ≤
        (monitorLoop cfg (fun _ => true) 0 (idealTicks cfg.interval e n)).1.length ∧
    (∀ r ∈ (monitorLoop cfg (fun _ => true) 0 (idealTicks cfg.interval e n)).1,
        r.logged = true) ∧
    startReturn ExitKind.durationDone = Except.ok () ∧
    (∀ cfg' : MonitorConfig, cfg'.duration = 0 →
      ∀ (flag : Nat → Bool) (iter : Nat) (ticks : List TickData),
        (monitorLoop cfg' flag iter ticks).2 ≠ ExitKind.durationDone) := by
  obtain ⟨h1, h2, h3⟩ := loop_ideal cfg e hD hI n 0 0 (Nat.zero_le _)
    (by simp only [Nat.sub_zero]; exact hn)
  have h2' : (monitorLoop cfg (fun _ => true) 0 (idealTicks cfg.interval e n)).1.length =
      (cfg.duration + cfg.interval - 1) / cfg.interval + 1 := by
    simpa using h2
  exact ⟨h1, h2', by omega, h3, rfl, fun cfg' hd => monitorLoop_no_durationDone cfg' hd⟩

/-- Witness for C3: duration 5, interval 2, so the run takes
`(5 + 2 - 1) / 2 + 1 = 4` ticks. -/
theorem duration_termination_spec_witness :
    0 < cfgEx.duration ∧ 0 < cfgEx.interval ∧
    (cfgEx.duration + cfgEx.interval - 1) / cfgEx.interval + 1 ≤ 4 ∧
    (monitorLoop cfgEx (fun _ => true) 0 (idealTicks cfgEx.interval envEx 4)).2 =
      ExitKind.durationDone ∧
    (monitorLoop cfgEx (fun _ => true) 0 (idealTicks cfgEx.interval envEx 4)).1.length =
      (cfgEx.duration + cfgEx.interval - 1) / cfgEx.interval + 1 :=
  have h := duration_termination_spec cfgEx envEx 4 (by decide) (by decide) (by decide)
  ⟨by decide, by decide, by decide, h.1, h.2.1⟩

/-- C4: stopping is cooperative — a flag check that observes the stop
request exits before any of that tick's work, and `start` then returns
`Ok`; a flag check that observes true runs the whole tick (sample, alert
evaluation when enabled, log), whatever the flag does afterwards, so a stop
request never interrupts a tick already in progress. -/
theorem stop_cooperative_spec (cfg : MonitorConfig) (flag : Nat → Bool) (iter : Nat)
    (td : TickData) (rest : List TickData) :
    (flag (iter + 1) = false →
      monitorLoop cfg flag iter (td :: rest) = ([], ExitKind.stopped) ∧
      startReturn ExitKind.stopped = Except.ok ()) ∧
    (flag (iter + 1) = true →
      (monitorLoop cfg flag iter (td :: rest)).1.head? =
        some ⟨iter + 1, get_system_stats td.env,
          if cfg.enable_alerts then some (check_alerts cfg (get_system_stats td.env)) else none,
          td.logOk⟩) :=
  ⟨fun hf => ⟨monitorLoop_stop cfg flag iter td rest hf, rfl⟩,
   fun hf => monitorLoop_head cfg flag iter td rest hf⟩

/-- Witness for C4 at a one-tick run, with the flag reading false and then
with it reading true. -/
theorem stop_cooperative_spec_witness :
    monitorLoop cfgEx (fun _ => false) 0 [tdEx] = ([], ExitKind.stopped) ∧
    startReturn ExitKind.stopped = Except.ok () ∧
    (monitorLoop cfgEx (fun _ => true) 0 [tdEx]).1.head? =
      some ⟨1, get_system_stats tdEx.env,
        if cfgEx.enable_alerts then some (check_alerts cfgEx (get_system_stats tdEx.env)) else none,
        tdEx.logOk⟩ :=
  have h1 := (stop_cooperative_spec cfgEx (fun _ => false) 0 tdEx []).1 rfl
  have h2 := (stop_cooperative_spec cfgEx (fun _ => true) 0 tdEx []).2 rfl
  ⟨h1.1, h1.2, h2⟩

/-- C5: a failing log append (serialization or file open/write) is fatal —
the run ends at that very tick with the error propagating out of `start`,
the work done before logging (sample, presentation, alerting) is kept in
the record of that tick, and nothing after it runs (no retry). -/
theorem log_failure_fatal_spec (cfg : MonitorConfig) (flag : Nat → Bool) (iter : Nat)
    (td : TickData) (rest : List TickData) (hf : flag (iter + 1) = true)
    (hl : td.logOk = false) :
    monitorLoop cfg flag iter (td :: rest) =
      ([⟨iter + 1, get_system_stats td.env,
          if cfg.enable_alerts then some (check_alerts cfg (get_system_stats td.env)) else none,
          false⟩], ExitKind.logError) ∧
    startReturn ExitKind.logError = Except.error () :=
  ⟨monitorLoop_logErr cfg flag iter td rest hf hl, rfl⟩

/-- Witness for C5: the first tick's log append fails although a further
tick input was available; the run ends at once with the error. -/
theorem log_failure_fatal_spec_witness :
    tdBad.logOk = false ∧
    monitorLoop cfgEx (fun _ => true) 0 [tdBad, tdEx] =
      ([⟨1, get_system_stats tdBad.env,
          if cfgEx.enable_alerts then some (check_alerts cfgEx (get_system_stats tdBad.env))
          else none,
          false⟩], ExitKind.logError) ∧
    startReturn ExitKind.logError = Except.error () :=
  have h := log_failure_fatal_spec cfgEx (fun _ => true) 0 tdBad [tdEx] rfl rfl
  ⟨rfl, h.1, h.2⟩

/-- C8: with `enable_alerts = false` no tick of any run ever invokes the
alert evaluator (the record of every tick shows no evaluation, not merely
suppressed output), regardless of the snapshot values. -/
theorem alerts_disabled_spec (cfg : MonitorConfig) (hA : cfg.enable_alerts = false)
    (flag : Nat → Bool) (iter : Nat) (ticks : List TickData) :
    ∀ r ∈ (monitorLoop cfg flag iter ticks).1, r.alerts_eval = none :=
  monitorLoop_alerts_none cfg hA flag iter ticks

/-- Witness for C8 at a two-tick run with alerts disabled. -/
theorem alerts_disabled_spec_witness :
    cfgOff.enable_alerts = false ∧
    ((monitorLoop cfgOff (fun _ => true) 0 [tdEx, tdEx]).1.all
      fun r => r.alerts_eval == none) = true :=
  ⟨rfl, List.all_eq_true.mpr fun r hr => by
    rw [alerts_disabled_spec cfgOff rfl (fun _ => true) 0 [tdEx, tdEx] r hr]
    rfl⟩

/-- C9: at the embedding boundary, a null configuration pointer runs the
loop with the default configuration (interval 5, duration 0, thresholds
90/85/80, alerts on, log file "system_monitor.log"), while configuration
text that fails to parse returns status code 1, which is nonzero, without
entering the loop (no tick records); both paths are total functions of the
model, so no language-level fault crosses the boundary. -/
theorem config_boundary_spec (stopReq : Nat → Bool) (ticks : List TickData) :
    run_system_monitor_with_config ConfigInput.null stopReq ticks =
      (exitCode (start_monitoring MonitorConfig.default false stopReq ticks).2,
        (start_monitoring MonitorConfig.default false stopReq ticks).1) ∧
    MonitorConfig.default = ⟨5, 0, 90, 85, 80, true, "system_monitor.log"⟩ ∧
    run_system_monitor_with_config (ConfigInput.text none) stopReq ticks = (1, []) ∧
    (1 : Int) ≠ 0 :=
  ⟨rfl, rfl, rfl, by decide⟩

/-- C10: a stop requested while the runner is idle is discarded —
`start_monitoring` overwrites the flag with true on entry, so the run is
the same whatever the prior flag value; and with no stop request delivered
after entry the loop never exits through the flag check and does run its
first tick. -/
theorem stop_before_start_spec (cfg : MonitorConfig) (r r' : Bool)
    (stopReq : Nat → Bool) (ticks : List TickData) :
    start_monitoring cfg r stopReq ticks = start_monitoring cfg r' stopReq ticks ∧
    ((∀ k, stopReq k = false) →
      (start_monitoring cfg r stopReq ticks).2 ≠ ExitKind.stopped) ∧
    ((∀ k, stopReq k = false) → ∀ td rest, ticks = td :: rest →
      (start_monitoring cfg r stopReq ticks).1.head? =
        some ⟨1, get_system_stats td.env,
          if cfg.enable_alerts then some (check_alerts cfg (get_system_stats td.env)) else none,
          td.logOk⟩) := by
  have hflag : (∀ k, stopReq k = false) → ∀ k, flagFrom stopReq k = true := by
    intro hs k
    simp [flagFrom, hs]
  refine ⟨rfl, ?_, ?_⟩
  · intro hs
    exact monitorLoop_never_stopped cfg (flagFrom stopReq) (hflag hs) 0 ticks
  · intro hs td rest ht
    rw [ht]
    exact monitorLoop_head cfg (flagFrom stopReq) 0 td rest (hflag hs 1)

/-- Witness for C10: a run entered with the flag already false (a stop
requested while idle) behaves exactly as one entered with it true, and
still runs its first tick. -/
theorem stop_before_start_spec_witness :
    start_monitoring cfgEx false stopNone [tdEx] =
      start_monitoring cfgEx true stopNone [tdEx] ∧
    (start_monitoring cfgEx false stopNone [tdEx]).2 ≠ ExitKind.stopped ∧
    (start_monitoring cfgEx false stopNone [tdEx]).1.head? =
      some ⟨1, get_system_stats tdEx.env,
        if cfgEx.enable_alerts then some (check_alerts cfgEx (get_system_stats tdEx.env)) else none,
        tdEx.logOk⟩ :=
  have h := stop_before_start_spec cfgEx false true stopNone [tdEx]
  ⟨h.1, h.2.1 (fun _ => rfl), h.2.2 (fun _ => rfl) tdEx [] rfl⟩

end Symon
